import Mathlib

/-!
Verification development for the nmap2nb host-classification (fingerprinting)
engine, a shallow embedding of `src/fingerprint_engine.py`.

The Python module decides `vendor`, `role_slug` and `device_type` for a scanned
host from: the MAC OUI table, the port-to-role table, a TLS-certificate/page
evidence fetch, and an ordered list of regex fingerprint rules.

Modelling conventions:
  * Python strings are Lean `String`s; a Python value that may be `None` is an
    `Option String`. Python truthiness of an optional string (`if mac:`) is
    `some s` with `s` non-empty.
  * Python dicts (`oui_dict`, `port_roles`) are modelled as lookup functions
    `String → Option _` (Python `dict.get` semantics; keys are unique).
  * A `port_roles` value is a dict that may lack the `role` or `device_type`
    keys, hence a record of `Option String` fields; `d.get(k, dflt)` becomes
    `Option.getD`.
  * A fingerprint rule is a dict that may lack `regex` / `vendor` /
    `device_type`, likewise a record of `Option String` fields.
  * The network part of `_fetch_cert_and_page` is not modelled: the pair
    (certificate CN, page text) that it would return is passed to
    `fingerprint_host` as an explicit `fetched` argument. Its pure
    post-processing (lower-casing, lines 93 and 102 of the source) is modelled
    by `collectCN` / `collectPage`.
  * `re.search` is modelled for literal patterns (patterns without regex
    metacharacters), for which a successful search is exactly substring
    occurrence; see `reSearch`.
  * String primitives used by the source (`upper()`, `lower()`, slicing,
    `strip()`, `str(int)`) are modelled by structural functions on the
    character list of a `String`, so that every definition evaluates by
    kernel reduction.
-/

/-! String primitives (models of the Python string operations) -/

/-- Model of Python `s[:n]`: the first `n` characters of `s`. -/
def strTake (s : String) (n : Nat) : String := String.mk (s.data.take n)

/-- Model of Python `s.upper()`: upper-case every character (ASCII case map,
which covers MAC-address characters). -/
def strUpper (s : String) : String := String.mk (s.data.map Char.toUpper)

/-- Model of Python `s.lower()`: lower-case every character. -/
def strLower (s : String) : String := String.mk (s.data.map Char.toLower)

/-- Model of Python `s.strip()`: drop leading and trailing whitespace. -/
def strStrip (s : String) : String :=
  String.mk (((s.data.dropWhile Char.isWhitespace).reverse.dropWhile
    Char.isWhitespace).reverse)

/-- Occurrence of `pat` as a contiguous sublist of `text` (naive scan:
`pat` is a suffix-anchored prefix of some suffix of `text`). -/
def hasSubList (text pat : List Char) : Bool :=
  match text with
  | [] => pat.isEmpty
  | _ :: t => pat.isPrefixOf text || hasSubList t pat

/-- Model of Python `re.search(pat, text)` restricted to literal patterns
(patterns containing no regex metacharacters), for which a successful search
is exactly an occurrence of `pat` as a substring of `text`. The match is
case-sensitive: the source calls `re.search` without `re.IGNORECASE`
(line 122 of `fingerprint_engine.py`). -/
def reSearch (pat text : String) : Bool := hasSubList text.data pat.data

/-- Python truthiness of an optional string: not `None` and not empty. -/
def truthyStr : Option String → Bool
  | none => false
  | some s => s != ""

/-! Data model -/

/-- The per-host observation dict produced by `nmap_scanner.scan_subnet`:
`ip_addr` is a string, `mac_addr` and `os_guess` are `str or None`,
`open_ports` a list of ints (positive TCP ports, in scan order). -/
structure HostData where
  ip_addr : String
  mac_addr : Option String
  open_ports : List Nat
  os_guess : Option String
deriving Repr, DecidableEq

/-- A value of the `port_roles` mapping: a dict with optional keys
`role` and `device_type` (source lines 51-55 read both with `dict.get`). -/
structure PortEntry where
  role : Option String
  device_type : Option String
deriving Repr, DecidableEq

/-- One fingerprint rule: a dict with optional keys `regex`, `vendor`,
`device_type` (source lines 117-121 read all three with `dict.get`). -/
structure FingerprintEntry where
  regex : Option String
  vendor : Option String
  device_type : Option String
deriving Repr, DecidableEq

/-- The engine's rule store, as passed to `FingerprintEngine.__init__`. -/
structure FingerprintEngine where
  oui_dict : String → Option String
  port_roles : String → Option PortEntry
  fingerprint_patterns : List FingerprintEntry

/-- The classification returned by `fingerprint_host` (source lines 74-78). -/
structure Classification where
  vendor : String
  role_slug : String
  device_type : String
deriving Repr, DecidableEq

/-- Source line 11. -/
def DEFAULT_VENDOR : String := "Unknown"

/-- Source line 12. -/
def DEFAULT_ROLE_SLUG : String := "unknown"

/-- Source line 13. -/
def DEFAULT_DEVICE_TYPE : String := "Unknown"

/-! The engine's operations -/

/-- The rule-scanning loop of `_regex_fingerprint` (source lines 117-124):
entries missing `regex`, `vendor` or `device_type` (or with an empty value,
which is falsy) are skipped; otherwise the first entry whose pattern matches
the combined text is returned. -/
def matchLoop : List FingerprintEntry → String → Option (String × String)
  | [], _ => none
  | en :: rest, combined =>
    if truthyStr en.regex && truthyStr en.vendor && truthyStr en.device_type then
      if reSearch (en.regex.getD ("")) combined then
        some (en.vendor.getD (""), en.device_type.getD (""))
      else matchLoop rest combined
    else matchLoop rest combined

/-- `FingerprintEngine._regex_fingerprint` (source lines 108-124): combine
the certificate CN and page text with a space, return `none` when the result
is whitespace-only, otherwise scan `fingerprint_patterns` in order. The
Python `(vend, dt)` / `(None, None)` return becomes `Option (String × String)`
(the two components are always both set or both `None`). -/
def _regex_fingerprint (e : FingerprintEngine) (cert_cn page_text : String) :
    Option (String × String) :=
  let combined := cert_cn ++ " " ++ page_text
  if strStrip combined == "" then none
  else matchLoop e.fingerprint_patterns combined

/-- Pure post-processing of the certificate CN in `_fetch_cert_and_page`
(source line 93): the extracted common name is lower-cased. -/
def collectCN (raw : String) : String := strLower raw

/-- Pure post-processing of the page body in `_fetch_cert_and_page`
(source line 102): the response text is lower-cased. -/
def collectPage (raw : String) : String := strLower raw

/-- Step 1 of `fingerprint_host` (source lines 41-46): if the MAC is truthy,
upper-case its first 8 characters and look the 3-octet OUI up in `oui_dict`;
a truthy hit overwrites `vendor`. -/
def ouiStep (e : FingerprintEngine) (mac : Option String) (vendor : String) :
    String :=
  match mac with
  | none => vendor
  | some m =>
    if m != "" then
      let pfx := strUpper (strTake m 8)
      match e.oui_dict pfx with
      | some v => if v != "" then v else vendor
      | none => vendor
    else vendor

/-- Step 2 of `fingerprint_host` (source lines 50-58): walk `open_ports` in
order; at the first port whose decimal string is a key of `port_roles`, read
`role` and `device_type` from its entry (keeping the prior value for a
missing key) and stop. -/
def portStep (e : FingerprintEngine) :
    List Nat → String → String → String × String
  | [], role_slug, device_type => (role_slug, device_type)
  | p :: ps, role_slug, device_type =>
    match e.port_roles (toString p) with
    | some entry => (entry.role.getD role_slug, entry.device_type.getD device_type)
    | none => portStep e ps role_slug device_type

/-- The refinement applied to `(vendor, device_type)` from the fetched
evidence inside step 3 (source lines 62-68): run `_regex_fingerprint` on the
fetched pair; a truthy matched vendor replaces `vendor` only while `vendor`
is still the default, and likewise for `device_type`. -/
def tlsRefine (e : FingerprintEngine) (fetched : String × String)
    (vendor device_type : String) : String × String :=
  match _regex_fingerprint e fetched.1 fetched.2 with
  | some vd2 =>
    (if vd2.1 != "" && vendor == DEFAULT_VENDOR then vd2.1 else vendor,
     if vd2.2 != "" && device_type == DEFAULT_DEVICE_TYPE then vd2.2 else device_type)
  | none => (vendor, device_type)

/-- `FingerprintEngine.fingerprint_host` (source lines 29-78), instrumented:
the second component records whether the evidence fetch
(`_fetch_cert_and_page`, called only on source line 62) was invoked. The
`fetched` argument stands for the pair that call would return. Step 4
(source lines 70-72) computes a lower-cased OS guess and never uses it. -/
def fingerprint_host_traced (e : FingerprintEngine) (fetched : String × String)
    (host : HostData) : Classification × Bool :=
  let vendor := DEFAULT_VENDOR
  let role_slug := DEFAULT_ROLE_SLUG
  let device_type := DEFAULT_DEVICE_TYPE
  -- 1) OUI
  let vendor := ouiStep e host.mac_addr vendor
  -- 2) Port-based (first match wins)
  let rd := portStep e host.open_ports role_slug device_type
  let role_slug := rd.1
  let device_type := rd.2
  -- 3) certificate/page inspection, only if port 443 is open and a field
  --    is still at its default (source line 61)
  let doFetch :=
    host.open_ports.contains 443 &&
      (vendor == DEFAULT_VENDOR || device_type == DEFAULT_DEVICE_TYPE)
  let vd := if doFetch then tlsRefine e fetched vendor device_type
            else (vendor, device_type)
  -- 4) OS guess: computed but unused (source lines 70-72)
  let _lower_os :=
    if vd.1 == DEFAULT_VENDOR && truthyStr host.os_guess then
      strLower (host.os_guess.getD (""))
    else ("")
  ({ vendor := vd.1, role_slug := role_slug, device_type := vd.2 }, doFetch)

/-- `FingerprintEngine.fingerprint_host`: the classification alone. -/
def fingerprint_host (e : FingerprintEngine) (fetched : String × String)
    (host : HostData) : Classification :=
  (fingerprint_host_traced e fetched host).1

/-! Concrete rule stores and host observations used by the witness and
counterexample theorems below. -/

def c1wEng : FingerprintEngine :=
  { oui_dict := fun s => if s = "AC:DE:48" then some ("Acme") else none,
    port_roles := fun _ => none,
    fingerprint_patterns :=
      [{ regex := some ("mikrotik"), vendor := some ("MikroTik"),
         device_type := some ("RouterOS") }] }

def c1wHost : HostData :=
  { ip_addr := "10.0.0.1", mac_addr := some ("ac:de:48:00:11:22"),
    open_ports := [443], os_guess := some ("Linux") }

def c1cxEng : FingerprintEngine :=
  { oui_dict := fun s => if s = "AA:BB:CC" then some ("") else none,
    port_roles := fun _ => none,
    fingerprint_patterns := [] }

def c1cxHost : HostData :=
  { ip_addr := "10.0.0.2", mac_addr := some ("AA:BB:CC:00:11:22"),
    open_ports := [], os_guess := none }

def c2wEng : FingerprintEngine :=
  { oui_dict := fun _ => none,
    port_roles := fun s =>
      if s = "22" then some { role := some ("server"), device_type := some ("Linux Host") }
      else if s = "9100" then some { role := some ("printer"), device_type := some ("Printer") }
      else none,
    fingerprint_patterns := [] }

def c2cxEng : FingerprintEngine :=
  { oui_dict := fun _ => none,
    port_roles := fun s =>
      if s = "22" then some { role := some ("server"), device_type := some ("Unknown") }
      else none,
    fingerprint_patterns :=
      [{ regex := some ("acme"), vendor := some ("Acme"),
         device_type := some ("AcmeBox") }] }

def c2cxHost : HostData :=
  { ip_addr := "10.0.0.4", mac_addr := none, open_ports := [22, 443],
    os_guess := none }

def c4wEng : FingerprintEngine :=
  { oui_dict := fun _ => none,
    port_roles := fun _ => none,
    fingerprint_patterns :=
      [{ regex := some ("device"), vendor := some ("FirstVendor"),
         device_type := some ("FirstType") },
       { regex := some ("mikrotik"), vendor := some ("MikroTik"),
         device_type := some ("RouterOS") }] }

def c5cxEngUpper : FingerprintEngine :=
  { oui_dict := fun _ => none,
    port_roles := fun _ => none,
    fingerprint_patterns :=
      [{ regex := some ("MIKROTIK"), vendor := some ("MikroTik"),
         device_type := some ("RouterOS") }] }

def c5cxEngLower : FingerprintEngine :=
  { oui_dict := fun _ => none,
    port_roles := fun _ => none,
    fingerprint_patterns :=
      [{ regex := some ("mikrotik"), vendor := some ("MikroTik"),
         device_type := some ("RouterOS") }] }

def c7wEng : FingerprintEngine :=
  { oui_dict := fun s => if s = "AC:DE:48" then some ("Acme") else none,
    port_roles := fun s =>
      if s = "22" then some { role := some ("server"), device_type := some ("Linux Host") }
      else none,
    fingerprint_patterns := [] }

def c7wHost : HostData :=
  { ip_addr := "10.0.0.5", mac_addr := none, open_ports := [22, 443],
    os_guess := none }

def c7cxEng : FingerprintEngine :=
  { oui_dict := fun _ => none,
    port_roles := fun s =>
      if s = "22" then some { role := some (""), device_type := some ("NAS") }
      else none,
    fingerprint_patterns := [] }

def c7cxHost : HostData :=
  { ip_addr := "10.0.0.6", mac_addr := none, open_ports := [22],
    os_guess := none }

def c10wEng : FingerprintEngine :=
  { oui_dict := fun _ => none,
    port_roles := fun s =>
      if s = "9100" then some { role := none, device_type := some ("Printer") }
      else if s = "22" then
        some { role := some ("server"), device_type := some ("Linux Host") }
      else none,
    fingerprint_patterns := [] }

def c10cxEng : FingerprintEngine :=
  { oui_dict := fun _ => none,
    port_roles := fun s =>
      if s = "22" then some { role := some ("server"), device_type := none }
      else none,
    fingerprint_patterns :=
      [{ regex := some ("acme"), vendor := some ("Acme"),
         device_type := some ("AcmeBox") }] }

def c10cxHost : HostData :=
  { ip_addr := "10.0.0.8", mac_addr := none, open_ports := [22, 443],
    os_guess := none }

/-! Helper lemmas -/

/-- The port loop on a list whose first matching port is `p`: every port of
`ps1` misses `port_roles`, `p` hits entry `entry`; the loop returns that
entry's values (with the incoming defaults for missing keys) and ignores
`ps2` entirely. -/
theorem portStep_first_match (e : FingerprintEngine) (ps1 : List Nat) (p : Nat)
    (ps2 : List Nat) (r d : String) (entry : PortEntry)
    (hpre : ∀ q ∈ ps1, e.port_roles (toString q) = none)
    (hp : e.port_roles (toString p) = some entry) :
    portStep e (ps1 ++ p :: ps2) r d =
      (entry.role.getD r, entry.device_type.getD d) := by
  induction ps1 with
  | nil => simp [portStep, hp]
  | cons q qs ih =>
    have hq : e.port_roles (toString q) = none := hpre q (by simp)
    simpa [portStep, hq] using ih (fun x hx => hpre x (by simp [hx]))

/-- The returned `role_slug` is always the port-loop result: no later step of
`fingerprint_host` touches it. -/
theorem fingerprint_host_role (e : FingerprintEngine) (fetched : String × String)
    (host : HostData) :
    (fingerprint_host e fetched host).role_slug =
      (portStep e host.open_ports DEFAULT_ROLE_SLUG DEFAULT_DEVICE_TYPE).1 := by
  simp [fingerprint_host, fingerprint_host_traced]

/-- A vendor resolved to a non-default value by the OUI step survives to the
output: the TLS refinement replaces only a still-default vendor. -/
theorem fingerprint_host_vendor_of_oui (e : FingerprintEngine)
    (fetched : String × String) (host : HostData)
    (hv : ouiStep e host.mac_addr DEFAULT_VENDOR ≠ DEFAULT_VENDOR) :
    (fingerprint_host e fetched host).vendor =
      ouiStep e host.mac_addr DEFAULT_VENDOR := by
  simp only [fingerprint_host, fingerprint_host_traced]
  split
  · simp only [tlsRefine]
    split
    · rename_i vd2 _
      simp [hv]
    · rfl
  · rfl

/-- A device type resolved to a non-default value by the port step survives to
the output: the TLS refinement replaces only a still-default device type. -/
theorem fingerprint_host_dt_of_port (e : FingerprintEngine)
    (fetched : String × String) (host : HostData)
    (hd : (portStep e host.open_ports DEFAULT_ROLE_SLUG DEFAULT_DEVICE_TYPE).2 ≠
      DEFAULT_DEVICE_TYPE) :
    (fingerprint_host e fetched host).device_type =
      (portStep e host.open_ports DEFAULT_ROLE_SLUG DEFAULT_DEVICE_TYPE).2 := by
  simp only [fingerprint_host, fingerprint_host_traced]
  split
  · simp only [tlsRefine]
    split
    · rename_i vd2 _
      simp [hd]
    · rfl
  · rfl

/-- When port 443 is not open the TLS step is skipped, so the output is
exactly the OUI vendor and the port-loop pair. -/
theorem fingerprint_host_no443 (e : FingerprintEngine) (fetched : String × String)
    (host : HostData) (h443 : 443 ∉ host.open_ports) :
    fingerprint_host e fetched host =
      { vendor := ouiStep e host.mac_addr DEFAULT_VENDOR,
        role_slug := (portStep e host.open_ports DEFAULT_ROLE_SLUG DEFAULT_DEVICE_TYPE).1,
        device_type := (portStep e host.open_ports DEFAULT_ROLE_SLUG DEFAULT_DEVICE_TYPE).2 } := by
  simp [fingerprint_host, fingerprint_host_traced, h443]

/-! Claim C3: when the evidence fetch runs -/

/-- C3. The TLS/page evidence fetch is performed if and only if 443 is among
`open_ports` and at least one of `vendor` (after the OUI step) or
`device_type` (after the port step) is still at its default; in particular it
is never invoked when both are already non-default after steps 2-3, and never
invoked when 443 is not open. The traced embedding records the fetch call of
source line 62 in its second component. -/
theorem c3_fetch_exactly_when_unresolved (e : FingerprintEngine)
    (fetched : String × String) (host : HostData) :
    (fingerprint_host_traced e fetched host).2 = true ↔
      443 ∈ host.open_ports ∧
        (ouiStep e host.mac_addr DEFAULT_VENDOR = DEFAULT_VENDOR ∨
         (portStep e host.open_ports DEFAULT_ROLE_SLUG DEFAULT_DEVICE_TYPE).2 =
           DEFAULT_DEVICE_TYPE) := by
  simp [fingerprint_host_traced]

/-! Claim C8: determinism / idempotence -/

/-- C8. Classification is deterministic and idempotent: with the evidence
fetch fixed to return the same (cert CN, page text) pair, two calls of
`fingerprint_host` on the same observation against the same rule store yield
identical classification records. In the embedding `fingerprint_host` is a
pure function of exactly the rule store, the fetched pair and the
observation, so the repeated call is definitionally the same record. -/
theorem c8_idempotent (e : FingerprintEngine) (fetched : String × String)
    (host : HostData) :
    fingerprint_host e fetched host = fingerprint_host e fetched host := rfl

/-! Claim C9: the OS-guess step is a no-op -/

/-- C9. The OS-guess refinement step is a no-op: two host observations that
differ only in `os_guess` (same IP, MAC and open ports, evidence fetch fixed)
are classified identically; `os_guess` never fills in the vendor field. The
embedded step 4 (source lines 70-72) computes a lower-cased guess and never
uses it. -/
theorem c9_os_guess_unused (e : FingerprintEngine) (fetched : String × String)
    (ip : String) (mac : Option String) (ports : List Nat)
    (os1 os2 : Option String) :
    fingerprint_host e fetched ⟨ip, mac, ports, os1⟩ =
      fingerprint_host e fetched ⟨ip, mac, ports, os2⟩ := rfl

/-! Claim C1: OUI precedence for the vendor -/

/-- C1 (amended). For every host observation whose MAC is present and whose
first-8-character upper-cased OUI maps in `oui_dict` to a value `v` that
is non-empty and different from the default `"Unknown"`, the classification
has `vendor = v`, regardless of the open ports, the OS guess and any
TLS/page evidence: the later fingerprint step only replaces a still-default
vendor. (The two exclusions are forced: an empty mapped value fails the
code's truthiness check and is never installed, and a mapped value equal to
the default can be overwritten by the TLS step — see the C1 counterexample below.) -/
theorem c1_oui_vendor_wins (e : FingerprintEngine) (fetched : String × String)
    (host : HostData) (m v : String)
    (hm : host.mac_addr = some m) (hm2 : m ≠ "")
    (hv : e.oui_dict (strUpper (strTake m 8)) = some v)
    (hv1 : v ≠ "") (hv2 : v ≠ DEFAULT_VENDOR) :
    (fingerprint_host e fetched host).vendor = v := by
  have h1 : ouiStep e host.mac_addr DEFAULT_VENDOR = v := by
    simp [ouiStep, hm, hm2, hv, hv1]
  have h2 := fingerprint_host_vendor_of_oui e fetched host (by rw [h1]; exact hv2)
  rw [h2, h1]

/-- C1 witness: a host with MAC prefix `AC:DE:48` mapped to `"Acme"`, port
443 open and conflicting TLS evidence matching a MikroTik rule is still
classified with vendor `"Acme"`. -/
theorem c1_witness :
    (fingerprint_host c1wEng ("mikrotik.local", "") c1wHost).vendor = "Acme" :=
  c1_oui_vendor_wins c1wEng ("mikrotik.local", "") c1wHost
    ("ac:de:48:00:11:22") ("Acme") rfl (by decide) (by decide) (by decide)
    (by decide)

/-- C1 counterexample to the claim as stated: the MAC is present and its
3-octet upper-cased OUI `"AA:BB:CC"` is a key of `oui_dict`, mapped to the
empty string; the claim demands `vendor = ""`, but the code's truthiness
check (`if maybe_vendor:`, source line 44) rejects the falsy value and the
returned vendor is the default `"Unknown"`, not the mapped value. -/
theorem c1_counterexample :
    c1cxEng.oui_dict ("AA:BB:CC") = some ("") ∧
    (fingerprint_host c1cxEng ("", "") c1cxHost).vendor = "Unknown" ∧
    (fingerprint_host c1cxEng ("", "") c1cxHost).vendor ≠ "" := by
  refine ⟨by decide, by decide, by decide⟩

/-! Claim C2: first matching port wins -/

/-- C2 (amended). For every observation whose `open_ports` are
`ps1 ++ p :: ps2` with no port of `ps1` in `port_roles` and `p` mapped to an
entry carrying role `r` and device type `d`, the classification has
`role_slug = r`, and `device_type = d` provided the mapped `d` differs from
the literal default `"Unknown"`; mappings of any later matching port in
`ps2` are ignored (the loop stops at the first match; no merging). (The
proviso on `d` is forced: a first-port device type equal to the default can
be replaced by the TLS/page step — see the C2 counterexample below.) -/
theorem c2_first_port_match_wins (e : FingerprintEngine)
    (fetched : String × String) (ip : String) (mac : Option String)
    (os : Option String) (ps1 : List Nat) (p : Nat) (ps2 : List Nat)
    (entry : PortEntry) (r d : String)
    (hpre : ∀ q ∈ ps1, e.port_roles (toString q) = none)
    (hp : e.port_roles (toString p) = some entry)
    (hr : entry.role = some r) (hd : entry.device_type = some d)
    (hdd : d ≠ DEFAULT_DEVICE_TYPE) :
    (fingerprint_host e fetched ⟨ip, mac, ps1 ++ p :: ps2, os⟩).role_slug = r ∧
    (fingerprint_host e fetched ⟨ip, mac, ps1 ++ p :: ps2, os⟩).device_type = d := by
  have hps :
      portStep e (ps1 ++ p :: ps2) DEFAULT_ROLE_SLUG DEFAULT_DEVICE_TYPE =
        (entry.role.getD DEFAULT_ROLE_SLUG, entry.device_type.getD DEFAULT_DEVICE_TYPE) :=
    portStep_first_match e ps1 p ps2 DEFAULT_ROLE_SLUG DEFAULT_DEVICE_TYPE entry hpre hp
  constructor
  · rw [fingerprint_host_role]
    simp [hps, hr]
  · have hd2 :
        (portStep e (ps1 ++ p :: ps2) DEFAULT_ROLE_SLUG DEFAULT_DEVICE_TYPE).2 = d := by
      simp [hps, hd]
    have := fingerprint_host_dt_of_port e fetched ⟨ip, mac, ps1 ++ p :: ps2, os⟩
      (by simpa [hd2] using hdd)
    simpa [hd2] using this

/-- C2 witness: with ports `[22, 9100]` both mapped, the classification takes
role `"server"` and device type `"Linux Host"` from port 22 and ignores the
later matching port 9100. -/
theorem c2_witness :
    (fingerprint_host c2wEng ("", "")
        ⟨"10.0.0.3", none, [] ++ 22 :: [9100], none⟩).role_slug = "server" ∧
    (fingerprint_host c2wEng ("", "")
        ⟨"10.0.0.3", none, [] ++ 22 :: [9100], none⟩).device_type = "Linux Host" :=
  c2_first_port_match_wins c2wEng ("", "") ("10.0.0.3") none none [] 22 [9100]
    { role := some ("server"), device_type := some ("Linux Host") }
    ("server") ("Linux Host") (by simp) (by decide) rfl rfl (by decide)

/-- C2 counterexample to the claim as stated: port 22 is the first (and only)
port of the observation present in `port_roles`, mapped to device type
`"Unknown"`; the claim demands `device_type = "Unknown"`, but because that
mapped value coincides with the default the TLS step replaces it from the
fetched evidence and the returned device type is `"AcmeBox"`. -/
theorem c2_counterexample :
    c2cxEng.port_roles ("22") =
      some { role := some ("server"), device_type := some ("Unknown") } ∧
    (fingerprint_host c2cxEng ("acme", "") c2cxHost).device_type = "AcmeBox" := by
  refine ⟨by decide, by decide⟩

/-! Claim C4: first matching fingerprint rule wins -/

/-- On a rule list whose entries all carry truthy `regex`, `vendor` and
`device_type`, the scanning loop returns exactly the first entry whose
pattern matches the text, and `none` when no entry matches. -/
theorem matchLoop_eq_first_match (rules : List FingerprintEntry)
    (combined : String)
    (hwf : ∀ en ∈ rules, truthyStr en.regex = true ∧ truthyStr en.vendor = true ∧
      truthyStr en.device_type = true) :
    matchLoop rules combined =
      (rules.find? (fun en => reSearch (en.regex.getD ("")) combined)).map
        (fun en => (en.vendor.getD (""), en.device_type.getD (""))) := by
  induction rules with
  | nil => simp [matchLoop]
  | cons en rest ih =>
    obtain ⟨h1, h2, h3⟩ := hwf en (by simp)
    by_cases hm : reSearch (en.regex.getD ("")) combined
    · simp [matchLoop, h1, h2, h3, hm, List.find?_cons_of_pos]
    · simp only [matchLoop, h1, h2, h3, Bool.and_self, if_true, hm, if_false,
        Bool.eq_false_iff]
      rw [List.find?_cons_of_neg _ (by simpa using hm)]
      exact ih (fun x hx => hwf x (by simp [hx]))

/-- C4. For every pair of evidence strings whose combined text
`cert_cn ++ " " ++ page_text` is not whitespace-only, and every ordered rule
list whose entries are well-formed (truthy `regex`, `vendor` and
`device_type`; the spec's rules are `(pattern, vendor, device_type)` triples
and malformed entries are documented as silently skipped),
`_regex_fingerprint` returns the `(vendor, device_type)` pair of the first
rule in load order whose pattern matches the combined text, and `none` when
no rule matches; when two rules both match, only the first in list order is
applied. -/
theorem c4_first_rule_wins (e : FingerprintEngine) (cert_cn page_text : String)
    (hws : strStrip (cert_cn ++ " " ++ page_text) ≠ "")
    (hwf : ∀ en ∈ e.fingerprint_patterns, truthyStr en.regex = true ∧
      truthyStr en.vendor = true ∧ truthyStr en.device_type = true) :
    _regex_fingerprint e cert_cn page_text =
      (e.fingerprint_patterns.find?
          (fun en => reSearch (en.regex.getD ("")) (cert_cn ++ " " ++ page_text))).map
        (fun en => (en.vendor.getD (""), en.device_type.getD (""))) := by
  unfold _regex_fingerprint
  rw [if_neg (by simpa using hws)]
  exact matchLoop_eq_first_match e.fingerprint_patterns
    (cert_cn ++ " " ++ page_text) hwf

/-- C4 witness (the spec's Scenario D): both rules of `c4wEng` match the
combined text built from CN `"mikrotik device"`; the result is the first
rule's pair. -/
theorem c4_witness :
    _regex_fingerprint c4wEng ("mikrotik device") ("") =
      ((c4wEng.fingerprint_patterns.find?
          (fun en => reSearch (en.regex.getD ("")) ("mikrotik device" ++ " " ++ ""))).map
        (fun en => (en.vendor.getD (""), en.device_type.getD ("")))) :=
  c4_first_rule_wins c4wEng ("mikrotik device") ("") (by decide) (by decide)

/-! Claim C5: case sensitivity of fingerprint matching -/

/-- C5 counterexample to the claim as stated: whether a rule matches does
depend on the letter case of its pattern. Against the same lower-case
evidence text `"mikrotik"`, the rule whose pattern is `"MIKROTIK"` does not
match (the source calls `re.search` without `re.IGNORECASE`), while the rule
whose pattern differs only by case, `"mikrotik"`, does; a pattern containing
uppercase letters fails on the corresponding lower-case evidence text. -/
theorem c5_counterexample :
    _regex_fingerprint c5cxEngUpper ("mikrotik") ("") = none ∧
    _regex_fingerprint c5cxEngLower ("mikrotik") ("") =
      some ("MikroTik", "RouterOS") := by
  refine ⟨by decide, by decide⟩

/-- C5 (amended). Matching is insensitive to the letter case of the evidence
only because the Evidence Collector lower-cases the certificate CN and the
page body before matching (source lines 93 and 102): two raw evidence pairs
that agree up to case (equal lower-casings) produce the same fingerprint
result. The rule pattern itself is matched verbatim, case-sensitively
(source line 122 calls `re.search` with no `re.IGNORECASE` flag) — see the C5 counterexample above. -/
theorem c5_text_case_irrelevant (e : FingerprintEngine)
    (cn1 cn2 page1 page2 : String)
    (h1 : strLower cn1 = strLower cn2) (h2 : strLower page1 = strLower page2) :
    _regex_fingerprint e (collectCN cn1) (collectPage page1) =
      _regex_fingerprint e (collectCN cn2) (collectPage page2) := by
  simp only [collectCN, collectPage, h1, h2]

/-- C5 witness: raw CNs `"MikroTik.LOCAL"` and `"mikrotik.local"` differ only
in case, so after collection they are fingerprinted identically. -/
theorem c5_witness :
    _regex_fingerprint c5cxEngLower (collectCN ("MikroTik.LOCAL"))
        (collectPage ("")) =
      _regex_fingerprint c5cxEngLower (collectCN ("mikrotik.local"))
        (collectPage ("")) :=
  c5_text_case_irrelevant c5cxEngLower ("MikroTik.LOCAL") ("mikrotik.local")
    ("") ("") (by decide) (by decide)

/-! Claim C7: classification fields are never empty -/

/-- The OUI step never produces an empty vendor when its incoming value is
non-empty: a looked-up vendor is installed only when truthy. -/
theorem ouiStep_ne_empty (e : FingerprintEngine) (mac : Option String)
    (dflt : String) (h : dflt ≠ "") : ouiStep e mac dflt ≠ "" := by
  cases mac with
  | none => simpa [ouiStep] using h
  | some m =>
    simp only [ouiStep]
    split
    · cases hv : e.oui_dict (strUpper (strTake m 8)) with
      | none => simpa using h
      | some v =>
        by_cases hv2 : v = ""
        · simpa [hv2] using h
        · simp [hv2]
    · exact h

/-- The port step preserves non-emptiness of both fields provided every
`port_roles` entry reachable from the walked ports carries no empty string
(the code copies these values with no truthiness check). -/
theorem portStep_ne_empty (e : FingerprintEngine) (ports : List Nat)
    (r d : String)
    (hpr : ∀ p ∈ ports, Option.all
      (fun en => (en.role != some ("")) && (en.device_type != some ("")))
      (e.port_roles (toString p)) = true)
    (hr : r ≠ "") (hd : d ≠ "") :
    (portStep e ports r d).1 ≠ "" ∧ (portStep e ports r d).2 ≠ "" := by
  induction ports with
  | nil => exact ⟨hr, hd⟩
  | cons p ps ih =>
    have hp := hpr p (by simp)
    unfold portStep
    cases hq : e.port_roles (toString p) with
    | none => exact ih (fun x hx => hpr x (by simp [hx]))
    | some entry =>
      rw [hq] at hp
      simp only [Option.all] at hp
      rw [Bool.and_eq_true] at hp
      obtain ⟨hp1, hp2⟩ := hp
      constructor
      · cases hrole : entry.role with
        | none => simpa [hrole] using hr
        | some s =>
          rw [hrole] at hp1
          simp only [Option.getD, hrole]
          simpa using hp1
      · cases hdt : entry.device_type with
        | none => simpa [hdt] using hd
        | some s =>
          rw [hdt] at hp2
          simp only [Option.getD, hdt]
          simpa using hp2

/-- The TLS refinement preserves non-emptiness of both fields: a matched
value is installed only when truthy. -/
theorem tlsRefine_ne_empty (e : FingerprintEngine) (fetched : String × String)
    (v d : String) (hv : v ≠ "") (hd : d ≠ "") :
    (tlsRefine e fetched v d).1 ≠ "" ∧ (tlsRefine e fetched v d).2 ≠ "" := by
  unfold tlsRefine
  cases hm : _regex_fingerprint e fetched.1 fetched.2 with
  | none => exact ⟨hv, hd⟩
  | some vd2 =>
    constructor
    · dsimp only
      split
      · rename_i hcond
        rw [Bool.and_eq_true] at hcond
        simpa using hcond.1
      · exact hv
    · dsimp only
      split
      · rename_i hcond
        rw [Bool.and_eq_true] at hcond
        simpa using hcond.1
      · exact hd

/-- C7 (amended). For every host observation, fetched evidence and rule
store in which no `port_roles` entry carries an empty-string `role` or
`device_type` value, none of the three returned fields is the empty string:
the OUI and fingerprint paths install only truthy values, the defaults are
the non-empty literals, and the port step copies the (assumed non-empty)
entry values. (The proviso is forced: the port step copies entry values with
no truthiness check, so an empty string in `port_roles` flows straight into
the classification; see the C7 counterexample below.) -/
theorem c7_no_empty_fields (e : FingerprintEngine) (fetched : String × String)
    (host : HostData)
    (hpr : ∀ p ∈ host.open_ports, Option.all
      (fun en => (en.role != some ("")) && (en.device_type != some ("")))
      (e.port_roles (toString p)) = true) :
    (fingerprint_host e fetched host).vendor ≠ "" ∧
    (fingerprint_host e fetched host).role_slug ≠ "" ∧
    (fingerprint_host e fetched host).device_type ≠ "" := by
  have hv := ouiStep_ne_empty e host.mac_addr DEFAULT_VENDOR (by decide)
  have hps := portStep_ne_empty e host.open_ports DEFAULT_ROLE_SLUG
    DEFAULT_DEVICE_TYPE hpr (by decide) (by decide)
  have ht := tlsRefine_ne_empty e fetched
    (ouiStep e host.mac_addr DEFAULT_VENDOR)
    ((portStep e host.open_ports DEFAULT_ROLE_SLUG DEFAULT_DEVICE_TYPE).2)
    hv hps.2
  refine ⟨?_, ?_, ?_⟩
  · simp only [fingerprint_host, fingerprint_host_traced]
    split
    · exact ht.1
    · simpa using hv
  · rw [fingerprint_host_role]
    exact hps.1
  · simp only [fingerprint_host, fingerprint_host_traced]
    split
    · exact ht.2
    · simpa using hps.2

/-- C7 witness: a store whose port entries carry no empty values yields a
classification with three non-empty fields. -/
theorem c7_witness :
    (fingerprint_host c7wEng ("", "") c7wHost).vendor ≠ "" ∧
    (fingerprint_host c7wEng ("", "") c7wHost).role_slug ≠ "" ∧
    (fingerprint_host c7wEng ("", "") c7wHost).device_type ≠ "" :=
  c7_no_empty_fields c7wEng ("", "") c7wHost (by decide)

/-- C7 counterexample to the claim as stated: a rule store whose port entry
maps `role` to the empty string makes `fingerprint_host` return an empty
`role_slug` (the port step copies the value without a truthiness check), so
absence is not always represented by the literal defaults. -/
theorem c7_counterexample :
    c7cxEng.port_roles ("22") =
      some { role := some (""), device_type := some ("NAS") } ∧
    (fingerprint_host c7cxEng ("", "") c7cxHost).role_slug = "" := by
  refine ⟨by decide, by decide⟩

/-! Claim C10: partially-specified port entries -/

/-- C10 (amended). When the first port of the observation present in
`port_roles` maps to a partially-specified entry, `fingerprint_host` applies
the entry partially and still stops there (later matching ports, quantified
arbitrarily in `ps2`, are ignored): a missing `role` key leaves `role_slug`
at the default while the entry's device type (when not the literal default)
is installed, and a missing `device_type` key installs the entry's role while
leaving `device_type` at the default — the latter provided the TLS step does
not run (port 443 closed), since a device type left at the default can be
filled from fetched evidence afterwards (see the C10 counterexample below). -/
theorem c10_partial_port_entry (e : FingerprintEngine)
    (fetched : String × String) (ip : String) (mac : Option String)
    (os : Option String) (ps1 : List Nat) (p : Nat) (ps2 : List Nat)
    (entry : PortEntry)
    (hpre : ∀ q ∈ ps1, e.port_roles (toString q) = none)
    (hp : e.port_roles (toString p) = some entry) :
    (entry.role = none →
      (fingerprint_host e fetched ⟨ip, mac, ps1 ++ p :: ps2, os⟩).role_slug =
        DEFAULT_ROLE_SLUG) ∧
    (∀ d, entry.role = none → entry.device_type = some d →
      d ≠ DEFAULT_DEVICE_TYPE →
      (fingerprint_host e fetched ⟨ip, mac, ps1 ++ p :: ps2, os⟩).device_type = d) ∧
    (∀ r, entry.device_type = none → entry.role = some r →
      (fingerprint_host e fetched ⟨ip, mac, ps1 ++ p :: ps2, os⟩).role_slug = r) ∧
    (entry.device_type = none → 443 ∉ ps1 ++ p :: ps2 →
      (fingerprint_host e fetched ⟨ip, mac, ps1 ++ p :: ps2, os⟩).device_type =
        DEFAULT_DEVICE_TYPE) := by
  have hps := portStep_first_match e ps1 p ps2 DEFAULT_ROLE_SLUG
    DEFAULT_DEVICE_TYPE entry hpre hp
  refine ⟨?_, ?_, ?_, ?_⟩
  · intro h0
    rw [fingerprint_host_role]
    simp [hps, h0]
  · intro d h0 hd hdd
    have hd2 :
        (portStep e (ps1 ++ p :: ps2) DEFAULT_ROLE_SLUG DEFAULT_DEVICE_TYPE).2 = d := by
      simp [hps, hd]
    have := fingerprint_host_dt_of_port e fetched ⟨ip, mac, ps1 ++ p :: ps2, os⟩
      (by simpa [hd2] using hdd)
    simpa [hd2] using this
  · intro r h0 hr
    rw [fingerprint_host_role]
    simp [hps, hr]
  · intro h0 h443
    have h5 := fingerprint_host_no443 e fetched ⟨ip, mac, ps1 ++ p :: ps2, os⟩
      (by simpa using h443)
    rw [h5]
    simp [hps, h0]

/-- C10 witness: with ports `[9100, 22]`, where the entry of the first
matching port 9100 lacks `role` and a later port 22 maps a complete entry,
the role stays at the default `"unknown"` (the loop stopped at 9100) while
the device type `"Printer"` is taken from the partial entry. -/
theorem c10_witness :
    (fingerprint_host c10wEng ("", "")
        ⟨"10.0.0.7", none, [] ++ 9100 :: [22], none⟩).role_slug =
      DEFAULT_ROLE_SLUG ∧
    (fingerprint_host c10wEng ("", "")
        ⟨"10.0.0.7", none, [] ++ 9100 :: [22], none⟩).device_type = "Printer" :=
  ⟨(c10_partial_port_entry c10wEng ("", "") ("10.0.0.7") none none [] 9100 [22]
      { role := none, device_type := some ("Printer") } (by simp) (by decide)).1
      rfl,
   (c10_partial_port_entry c10wEng ("", "") ("10.0.0.7") none none [] 9100 [22]
      { role := none, device_type := some ("Printer") } (by simp)
      (by decide)).2.1 ("Printer") rfl rfl (by decide)⟩

/-- C10 counterexample to the claim as stated: the first matching port's
entry lacks `device_type`, so the claim demands that `device_type` stay at
its prior default `"Unknown"`; but with 443 open and matching evidence the
TLS step fills it with `"AcmeBox"`. -/
theorem c10_counterexample :
    c10cxEng.port_roles ("22") =
      some { role := some ("server"), device_type := none } ∧
    (fingerprint_host c10cxEng ("acme", "") c10cxHost).device_type = "AcmeBox" ∧
    (fingerprint_host c10cxEng ("acme", "") c10cxHost).device_type ≠
      DEFAULT_DEVICE_TYPE := by
  refine ⟨by decide, by decide, by decide⟩
